import Mathlib

/-!
Verification of `ryu/services/protocols/vrrp/rpc_manager.py` (the RPC
control plane for VRRP instances).  The Python module is shallowly
embedded below: its handlers become Lean functions over a `Val` type of
Python values, fallible Python code becomes `Except`, and the external
collaborators (the Instance Registry `vrrp_api`, the event-class
constructors of `vrrp_event`, and the peer endpoints of `ryu.lib.rpc`,
none of which are under `src/`) are abstracted as parameters of an
environment record, modelled from the specification's interface
contracts.
-/

namespace RpcVRRP

/-- Python values as they occur in msgpack-RPC parameters and results:
`None`, booleans, integers, strings, lists and string-keyed dicts. -/
inductive Val where
  | none : Val
  | bool (b : Bool) : Val
  | int (n : Int) : Val
  | str (s : String) : Val
  | list (xs : List Val) : Val
  | dict (entries : List (String × Val)) : Val
deriving Repr

mutual
/-- Python `==` on values (structural, recursing into lists and dicts). -/
def valBEq : Val → Val → Bool
  | Val.none, Val.none => true
  | Val.bool a, Val.bool b => a == b
  | Val.int a, Val.int b => a == b
  | Val.str a, Val.str b => a == b
  | Val.list xs, Val.list ys => valListBEq xs ys
  | Val.dict es, Val.dict fs => valDictBEq es fs
  | _, _ => false

/-- Python `==` on lists of values, elementwise. -/
def valListBEq : List Val → List Val → Bool
  | [], [] => true
  | x :: xs, y :: ys => valBEq x y && valListBEq xs ys
  | _, _ => false

/-- Python `==` on dicts (as ordered association lists), entrywise. -/
def valDictBEq : List (String × Val) → List (String × Val) → Bool
  | [], [] => true
  | (k1, v1) :: es, (k2, v2) :: fs => k1 == k2 && valBEq v1 v2 && valDictBEq es fs
  | _, _ => false
end

/-- A Python dict with string keys, as an association list (keys unique
in any dict produced by msgpack decoding). -/
abbrev Dict := List (String × Val)

/-- Python `d[k]` / `d.get(k)` lookup: value of the entry with key `k`. -/
def dget (d : Dict) (k : String) : Option Val :=
  (d.find? (fun kv => kv.1 == k)).map (fun kv => kv.2)

/-- Keep only the entries whose key satisfies `p` (used for dict
filtering and for `dict.pop`). -/
def filterKeys (p : String → Bool) (d : Dict) : Dict :=
  d.filter (fun kv => p kv.1)

/-- Python `d[k] = v`: afterwards `k` maps to `v` and every other key
is unchanged (dicts here are key-value maps; this code only ever
assigns keys not already present). -/
def dset (d : Dict) (k : String) (v : Val) : Dict :=
  filterKeys (fun k2 => ! (k2 == k)) d ++ [(k, v)]

/-- Python `d.pop(k)`: the value at `k` together with the dict with `k`
removed; `Option.none` when the key is absent (Python raises KeyError). -/
def dpop (d : Dict) (k : String) : Option (Val × Dict) :=
  match dget d k with
  | Option.none => Option.none
  | some v => some (v, filterKeys (fun k2 => ! (k2 == k)) d)

/-- Embeds `_params_to_dict`: the sub-dict of `params` whose keys lie in
`keys` (the source iterates `params.items()` keeping matching keys). -/
def params_to_dict (d : Dict) (keys : List String) : Dict :=
  filterKeys (fun k => keys.contains k) d

/-- The Python type name of a value, as used in TypeError messages. -/
def pyTypeName : Val → String
  | Val.none => "NoneType"
  | Val.bool _ => "bool"
  | Val.int _ => "int"
  | Val.str _ => "str"
  | Val.list _ => "list"
  | Val.dict _ => "dict"

mutual
/-- Python `str()` of a value (as interpolated by `'%s' % v`), used by
`_config` to echo the raw parameter dict inside error messages. -/
def pyRepr : Val → String
  | Val.none => "None"
  | Val.bool b => if b then "True" else "False"
  | Val.int n => toString n
  | Val.str s => "\x27" ++ s ++ "\x27"
  | Val.list xs => "[" ++ pyReprElems xs ++ "]"
  | Val.dict es => "\x7b" ++ pyReprEntries es ++ "\x7d"

/-- Comma-separated reprs of list elements. -/
def pyReprElems : List Val → String
  | [] => ""
  | [x] => pyRepr x
  | x :: xs => pyRepr x ++ ", " ++ pyReprElems xs

/-- Comma-separated reprs of dict entries. -/
def pyReprEntries : List (String × Val) → String
  | [] => ""
  | [(k, v)] => "\x27" ++ k ++ "\x27: " ++ pyRepr v
  | (k, v) :: es => "\x27" ++ k ++ "\x27: " ++ pyRepr v ++ ", " ++ pyReprEntries es
end

/-- CPython `'%d' % v`: decimal rendering for ints (and bools, which are
ints in Python); any other operand raises TypeError (`Option.none`). -/
def formatD : Val → Option String
  | Val.int n => some (toString n)
  | Val.bool b => some (if b then "1" else "0")
  | _ => Option.none

/-- Render an IPv4 address (as a 32-bit number) in dotted-quad form. -/
def ipv4ToString (n : Nat) : String :=
  toString ((n / 16777216) % 256) ++ "." ++ toString ((n / 65536) % 256) ++ "."
    ++ toString ((n / 256) % 256) ++ "." ++ toString (n % 256)

/-- Split a character sequence at every dot. -/
def splitOnDot : List Char → List (List Char)
  | [] => [[]]
  | c :: cs =>
    if c = Char.ofNat 46 then [] :: splitOnDot cs
    else
      match splitOnDot cs with
      | [] => [[c]]
      | g :: gs => (c :: g) :: gs

/-- Parse one decimal octet (0..255) of a dotted-quad address. -/
def parseOctet (cs : List Char) : Option Nat :=
  if cs.length = 0 ∨ cs.length > 3 then Option.none
  else if cs.all Char.isDigit then
    let n := cs.foldl (fun a c => a * 10 + (c.toNat - 48)) 0
    if n ≤ 255 then some n else Option.none
  else Option.none

/-- Parse a decimal dotted-quad IPv4 string to its 32-bit number. -/
def parseIPv4 (s : String) : Option Nat :=
  match (splitOnDot s.toList).mapM parseOctet with
  | some [a, b, c, d] => some (((a * 256 + b) * 256 + c) * 256 + d)
  | _ => Option.none

/-- Models `str(netaddr.IPAddress(v))` (netaddr is a third-party
library): the canonical string form of an address given as an IPv4
integer or a decimal dotted-quad string; any other operand makes the
constructor raise (`Option.none`), which in `rpc_manager.py` is never
caught. -/
def ipAddressStr : Val → Option String
  | Val.int n => if 0 ≤ n ∧ n < 4294967296 then some (ipv4ToString n.toNat) else Option.none
  | Val.str s => (parseIPv4 s).map ipv4ToString
  | _ => Option.none

/-- The constant `ryu.lib.mac.DONTCARE_STR` (repository code outside `src/`): the
"don't care" MAC sentinel the spec names in §4.4. -/
def DONTCARE_STR : String := "00:00:00:00:00:00"

/-- A Python exception as seen at the dispatcher's `try` block: either
the module's own `RPCError` (carrying its message) or any other
exception (TypeError, AttributeError, IndexError, ...), which the
dispatcher does not catch. -/
inductive PyErr where
  | rpcError (msg : String) : PyErr
  | otherError (msg : String) : PyErr
deriving Repr

/-- Modelled from the spec (§6): the effective configuration an
`instance_handle` of the Instance Registry exposes — virtual-router id,
version, advertisement interval, priority, and the assigned addresses
(first is the primary).  Field values are Python values. -/
structure ConfigRec where
  vrid : Val
  version : Val
  advertisement_interval : Val
  priority : Val
  ip_addresses : List Val
deriving Repr

/-- Modelled from the spec (§6): one instance handle reported by the
Instance Registry (`vrrp_api.vrrp_list`), exposing its name and its
effective config. -/
structure VRRPInstance where
  instance_name : String
  config : ConfigRec
deriving Repr

/-- One invocation of the Instance Registry (`vrrp_api`, repository code
outside `src/`), recorded so theorems can speak about which registry
operations a handler performed. -/
inductive RegCall where
  | config (ifaceObj : Val) (cfgObj : Val) (contexts : Val) : RegCall
  | list : RegCall
  | shutdown (instance_name : String) : RegCall
  | configChange (instance_name : String) (priority : Val) (advertisement_interval : Val) : RegCall
deriving Repr

/-- Modelled from the spec (§6): the behavior of the external
collaborators of `rpc_manager.py` that are not under `src/` — the
`vrrp_event` constructors assembling descriptors (which may reject
them), the Instance Registry's `create_or_update` and `list`, and the
`vrrp_use_vmac` policy flag from the process configuration. -/
structure Env where
  mkInterface : Dict → Option Val
  mkConfig : Dict → Option Val
  vrrpConfig : Val → Val → Val → Except String ConfigRec
  instance_list : List VRRPInstance
  use_vmac : Bool

/-- The interface-parameter block of `_config`: filter the first
parameter dict to `ip_address`/`ifname`, pop them into
`primary_ip_address`/`device_name` (each missing key raises an
`RPCError`), and fix `vlan_id = None` and the don't-care MAC. -/
def ifaceParamsOf (d : Dict) : Except PyErr Dict :=
  match dpop (params_to_dict d ["ip_address", "ifname"]) "ip_address" with
  | Option.none => Except.error (PyErr.rpcError "ip_addr parameter is missing")
  | some (ipv, if1) =>
    match dpop (dset if1 "primary_ip_address" ipv) "ifname" with
    | Option.none => Except.error (PyErr.rpcError "ifname parameter is missing")
    | some (ifv, if3) =>
      Except.ok (dset (dset (dset if3 "device_name" ifv) "vlan_id" Val.none)
        "mac_address" (Val.str DONTCARE_STR))

/-- The config-parameter block of `_config`: filter the first parameter
dict to the recognized config keys, apply the virtual-MAC policy flag,
and pop `ip_addr` into the one-element `ip_addresses` list (a missing
`ip_addr` raises an `RPCError`). -/
def configParamsOf (use_vmac : Bool) (d : Dict) : Except PyErr Dict :=
  let cp0 := params_to_dict d ["vrid", "ip_addr", "version", "admin_state", "priority",
    "advertisement_interval", "preempt_mode", "preempt_delay", "statistics_interval"]
  let cp1 := if use_vmac then dset cp0 "use_virtual_mac" (Val.bool true) else cp0
  match dpop cp1 "ip_addr" with
  | Option.none => Except.error (PyErr.rpcError "ip_addr parameter is missing")
  | some (ip, cp2) => Except.ok (dset cp2 "ip_addresses" (Val.list [ip]))

/-- Embeds `RpcVRRPManager._config`: build the interface descriptor and the
config object from the first positional parameter, hand them to the
Instance Registry, and return `[vrid, priority, str(IPAddress(primary))]`
of the registry-returned config.  The second component records the
registry invocations. -/
def _config (env : Env) (params : List Val) : Except PyErr Val × List RegCall :=
  match params with
  | [] => (Except.error (PyErr.rpcError "parameters are missing"), [])
  | Val.dict d :: _ =>
    match ifaceParamsOf d with
    | Except.error e => (Except.error e, [])
    | Except.ok ifp =>
      match env.mkInterface ifp with
      | Option.none =>
        (Except.error (PyErr.rpcError ("parameters are invalid, " ++ pyRepr (Val.dict d))), [])
      | some ifaceObj =>
        match configParamsOf env.use_vmac d with
        | Except.error e => (Except.error e, [])
        | Except.ok cps =>
          match env.mkConfig cps with
          | Option.none =>
            (Except.error (PyErr.rpcError ("parameters are invalid, " ++ pyRepr (Val.dict d))), [])
          | some cfgObj =>
            let ctx := (dget d "contexts").getD Val.none
            match env.vrrpConfig ifaceObj cfgObj ctx with
            | Except.error m =>
              (Except.error (PyErr.otherError m), [RegCall.config ifaceObj cfgObj ctx])
            | Except.ok rec =>
              match rec.ip_addresses.head? with
              | Option.none =>
                (Except.error (PyErr.otherError "IndexError: list index out of range"),
                  [RegCall.config ifaceObj cfgObj ctx])
              | some a =>
                match ipAddressStr a with
                | Option.none =>
                  (Except.error (PyErr.otherError "AddrFormatError: failed to detect IP address"),
                    [RegCall.config ifaceObj cfgObj ctx])
                | some s =>
                  (Except.ok (Val.list [rec.vrid, rec.priority, Val.str s]),
                    [RegCall.config ifaceObj cfgObj ctx])
  | v :: _ =>
    (Except.error (PyErr.otherError
      ("AttributeError: " ++ pyTypeName v ++ " object has no attribute items")), [])

/-- Embeds `RpcVRRPManager._lookup_instance`: linear scan of the registry's
reported instance list, returning the name of the first instance whose
config vrid compares `==` to the supplied value. -/
def _lookup_instance (env : Env) (vrid : Val) : Option String :=
  (env.instance_list.find? (fun inst => valBEq vrid inst.config.vrid)).map
    (fun inst => inst.instance_name)

/-- The `'vrid %d is not found'` failure of `_shutdown` and
`_config_change`: an `RPCError` when `%d` accepts the vrid, a TypeError
(uncaught by the dispatcher) when it does not, e.g. for a vrid of
`None` or a string. -/
def notFoundResult (vrid : Val) : Except PyErr Val :=
  match formatD vrid with
  | some s => Except.error (PyErr.rpcError ("vrid " ++ s ++ " is not found"))
  | Option.none =>
    Except.error (PyErr.otherError
      ("TypeError: %d format: a number is required, not " ++ pyTypeName vrid))

/-- Embeds `RpcVRRPManager._shutdown`: resolve `vrid` from the first parameter
dict, look the instance up (via `vrrp_api.vrrp_list`), tear it down
through the registry, and return `[{}]`. -/
def _shutdown (env : Env) (params : List Val) : Except PyErr Val × List RegCall :=
  match params with
  | [] => (Except.error (PyErr.rpcError "parameters are missing"), [])
  | Val.dict d :: _ =>
    let vrid := (dget d "vrid").getD Val.none
    match _lookup_instance env vrid with
    | some nm =>
      if nm = "" then (notFoundResult vrid, [RegCall.list])
      else (Except.ok (Val.list [Val.dict []]), [RegCall.list, RegCall.shutdown nm])
    | Option.none => (notFoundResult vrid, [RegCall.list])
  | v :: _ =>
    (Except.error (PyErr.otherError
      ("AttributeError: " ++ pyTypeName v ++ " object has no attribute get")), [])

/-- Embeds `RpcVRRPManager._config_change`: resolve `vrid` as `_shutdown`
does, forward the optional `priority` and `advertisement_interval`
overrides to the registry, and return `{}`. -/
def _config_change (env : Env) (params : List Val) : Except PyErr Val × List RegCall :=
  match params with
  | [] => (Except.error (PyErr.rpcError "parameters are missing"), [])
  | Val.dict d :: _ =>
    let vrid := (dget d "vrid").getD Val.none
    match _lookup_instance env vrid with
    | some nm =>
      if nm = "" then (notFoundResult vrid, [RegCall.list])
      else
        (Except.ok (Val.dict []),
          [RegCall.list, RegCall.configChange nm ((dget d "priority").getD Val.none)
            ((dget d "advertisement_interval").getD Val.none)])
    | Option.none => (notFoundResult vrid, [RegCall.list])
  | v :: _ =>
    (Except.error (PyErr.otherError
      ("AttributeError: " ++ pyTypeName v ++ " object has no attribute get")), [])

/-- The record `_list` builds for one instance once the canonical form
`s` of its primary address is known. -/
def listRecord (inst : VRRPInstance) (s : String) : Val :=
  Val.dict [("instance_name", Val.str inst.instance_name),
    ("vrid", inst.config.vrid),
    ("version", inst.config.version),
    ("advertisement_interval", inst.config.advertisement_interval),
    ("priority", inst.config.priority),
    ("virtual_ip_address", Val.str s)]

/-- The body of `_list`'s loop for one instance:
`str(netaddr.IPAddress(c.ip_addresses[0]))` raises (uncaught) when the
address list is empty or the address is malformed. -/
def instance_info (inst : VRRPInstance) : Except PyErr Val :=
  match inst.config.ip_addresses.head? with
  | Option.none => Except.error (PyErr.otherError "IndexError: list index out of range")
  | some a =>
    match ipAddressStr a with
    | Option.none =>
      Except.error (PyErr.otherError "AddrFormatError: failed to detect IP address")
    | some s => Except.ok (listRecord inst s)

/-- The loop of `_list` over the registry's instance list, appending one
record per instance and propagating the first uncaught exception. -/
def build_ret_list : List VRRPInstance → Except PyErr (List Val)
  | [] => Except.ok []
  | inst :: rest =>
    match instance_info inst with
    | Except.error e => Except.error e
    | Except.ok r =>
      match build_ret_list rest with
      | Except.error e => Except.error e
      | Except.ok rs => Except.ok (r :: rs)

/-- Embeds `RpcVRRPManager._list`: ignore the parameters entirely, ask the
registry for its instance list and return one record per instance. -/
def _list (env : Env) (params : List Val) : Except PyErr Val × List RegCall :=
  match build_ret_list env.instance_list with
  | Except.ok rs => (Except.ok (Val.list rs), [RegCall.list])
  | Except.error e => (Except.error e, [RegCall.list])

/-- What one iteration of the dispatcher loop does with a dequeued
command: send a response (success result or `RPCError` message), or
crash — an exception the `except RPCError` clause does not catch
escapes `_rpc_request_loop_thread` and terminates the loop thread. -/
inductive DispatchOutcome where
  | response (error : Option String) (result : Option Val) : DispatchOutcome
  | crash (e : PyErr) : DispatchOutcome
deriving Repr

/-- Fold a handler's outcome into the dispatcher's behavior: `RPCError`
becomes the response's error string, success becomes the response's
result, anything else crashes the loop. -/
def toOutcome : Except PyErr Val × List RegCall → DispatchOutcome × List RegCall
  | (Except.ok v, cs) => (DispatchOutcome.response Option.none (some v), cs)
  | (Except.error (PyErr.rpcError m), cs) => (DispatchOutcome.response (some m) Option.none, cs)
  | (Except.error (PyErr.otherError m), cs) =>
    (DispatchOutcome.crash (PyErr.otherError m), cs)

/-- One iteration of `_rpc_request_loop_thread`: resolve the method
name against the fixed table and run the handler inside
`try ... except RPCError`. -/
def dispatch (env : Env) (method : String) (params : List Val) :
    DispatchOutcome × List RegCall :=
  if method = "vrrp_config" then toOutcome (_config env params)
  else if method = "vrrp_list" then toOutcome (_list env params)
  else if method = "vrrp_config_change" then toOutcome (_config_change env params)
  else if method = "vrrp_shutdown" then toOutcome (_shutdown env params)
  else (DispatchOutcome.response (some ("Unknown method " ++ method)) Option.none, [])

/-- The dispatcher loop over a queue of dequeued commands: it answers
one command per iteration and runs forever — unless an iteration
crashes, which kills the loop thread, so the remaining commands are
never processed and the crashing command gets no response. -/
def rpc_request_loop (env : Env) : List (String × List Val) → List DispatchOutcome
  | [] => []
  | (m, ps) :: rest =>
    match dispatch env m ps with
    | (DispatchOutcome.response e r, _) =>
      DispatchOutcome.response e r :: rpc_request_loop env rest
    | (DispatchOutcome.crash e, _) => [DispatchOutcome.crash e]

/-- The event `EventVRRPStateChanged` as consumed by the broadcaster. -/
structure StateEvent where
  instance_name : String
  old_state : Val
  new_state : Val
  vrid : Val
deriving Repr

/-- The notification payload `vrrp_state_changed_handler` builds. -/
def notify_params (ev : StateEvent) : Val :=
  Val.dict [("vrid", ev.vrid), ("old_state", ev.old_state), ("new_state", ev.new_state)]

/-- Modelled from the spec: `send_notification` of a peer's endpoint
(`ryu.lib.rpc`, repository code outside `src/`) sends one notification
over the peer's socket; the spec (§4.2, §4.5) has sends that can fail,
and a failing send raises to the caller.  `send p name payload = true`
means the send to peer `p` succeeded.  The broadcaster loop below has
no exception handling, so the first failing send aborts it: the
returned list holds the peers actually notified, in order, and the
boolean is `false` when the loop died on a raised send. -/
def send_all (send : Nat → String → Val → Bool) (peers : List Nat) (evName : String)
    (payload : Val) : List Nat × Bool :=
  match peers with
  | [] => ([], true)
  | p :: rest =>
    if send p evName payload then
      let r := send_all send rest evName payload
      (p :: r.1, r.2)
    else ([], false)

/-- Embeds `RpcVRRPManager.vrrp_state_changed_handler`: build the payload from
the event and send a `notify_status` notification to every peer in the
shared peer list. -/
def vrrp_state_changed_handler (send : Nat → String → Val → Bool) (peers : List Nat)
    (ev : StateEvent) : List Nat × Bool :=
  send_all send peers "notify_status" (Val.list [notify_params ev])

/-! Section: concrete fixtures used by witnesses and counterexamples. -/

/-- An environment with an empty registry and rejecting constructors. -/
def env0 : Env :=
  { mkInterface := fun _ => Option.none, mkConfig := fun _ => Option.none,
    vrrpConfig := fun _ _ _ => Except.error "invalid", instance_list := [], use_vmac := false }

/-- A sample effective config the registry reports: vrid 1, priority
100, primary address 10.0.0.100. -/
def rec1 : ConfigRec :=
  { vrid := Val.int 1, version := Val.int 3, advertisement_interval := Val.int 1,
    priority := Val.int 100, ip_addresses := [Val.str "10.0.0.100"] }

/-- A registry instance named vrr1 with config `rec1`. -/
def inst1 : VRRPInstance := { instance_name := "vrr1", config := rec1 }

/-- An environment with accepting constructors and one live instance. -/
def env1 : Env :=
  { mkInterface := fun d => some (Val.dict d), mkConfig := fun d => some (Val.dict d),
    vrrpConfig := fun _ _ _ => Except.ok rec1, instance_list := [inst1], use_vmac := false }

/-- An environment whose registry reports two instances with the same
vrid 1, named vrrpA and vrrpB in that order. -/
def env2 : Env :=
  { mkInterface := fun d => some (Val.dict d), mkConfig := fun d => some (Val.dict d),
    vrrpConfig := fun _ _ _ => Except.ok rec1,
    instance_list := [{ instance_name := "vrrpA", config := rec1 },
      { instance_name := "vrrpB", config := rec1 }], use_vmac := false }

/-- A well-formed `vrrp_config` parameter dict. -/
def d1 : Dict :=
  [("ip_address", Val.str "10.0.0.1"), ("ifname", Val.str "veth0"),
    ("vrid", Val.int 1), ("ip_addr", Val.str "10.0.0.100")]

/-- The recognized keys of a `vrrp_config` parameter object: the
interface keys, the config keys, and `contexts`. -/
def recognizedKeys : List String :=
  ["ip_address", "ifname", "vrid", "ip_addr", "version", "admin_state", "priority",
    "advertisement_interval", "preempt_mode", "preempt_delay", "statistics_interval",
    "contexts"]

/-- Two handler outcomes that agree on everything except possibly the
text of an error message: same registry calls, same success value, and
errors of the same kind (`RPCError` vs uncaught). -/
def sameOutcome (a b : Except PyErr Val × List RegCall) : Prop :=
  a.2 = b.2 ∧
    match a.1, b.1 with
    | Except.ok v, Except.ok w => v = w
    | Except.error (PyErr.rpcError _), Except.error (PyErr.rpcError _) => True
    | Except.error (PyErr.otherError _), Except.error (PyErr.otherError _) => True
    | _, _ => False

/-- The spec's words for claim C5: an "empty result" — a result value
that is an empty collection. -/
def isEmptyResult : Val → Bool
  | Val.list xs => xs.isEmpty
  | Val.dict es => es.isEmpty
  | _ => false

/-! Section: dictionary lemmas. -/

theorem dget_cons (kv : String × Val) (d : Dict) (k : String) :
    dget (kv :: d) k = if kv.1 == k then some kv.2 else dget d k := by
  by_cases h : kv.1 == k <;> simp [dget, List.find?_cons, h]

theorem dget_filterKeys (p : String → Bool) (d : Dict) (k : String) :
    dget (filterKeys p d) k = if p k then dget d k else Option.none := by
  induction d with
  | nil => cases hp : p k <;> simp [dget, filterKeys, hp]
  | cons kv d ih =>
    by_cases hk : kv.1 = k
    · subst hk
      cases hp : p kv.1 <;>
        simp [filterKeys, List.filter_cons, hp, dget_cons] <;>
        simpa [filterKeys, hp] using ih
    · have hk2 : (kv.1 == k) = false := by simpa using hk
      cases hp : p kv.1 <;> cases hpk : p k <;>
        simp_all [filterKeys, List.filter_cons, dget_cons, hk2]

theorem dget_append_single_ne (d : Dict) (k k2 : String) (v : Val) (h : ¬ k2 = k) :
    dget (d ++ [(k2, v)]) k = dget d k := by
  induction d with
  | nil => simp [dget, List.find?_cons, h]
  | cons kv d ih =>
    by_cases hk : kv.1 == k <;> simp [List.cons_append, dget_cons, hk, ih]

theorem dget_dset_ne (d : Dict) (k k2 : String) (v : Val) (h : ¬ k2 = k) :
    dget (dset d k2 v) k = dget d k := by
  unfold dset
  have hb : (! (k == k2)) = true := by
    simp only [Bool.not_eq_true', beq_eq_false_iff_ne, ne_eq]
    exact fun hkk => h hkk.symm
  rw [dget_append_single_ne _ _ _ _ h, dget_filterKeys, if_pos hb]

theorem dpop_none_iff (d : Dict) (k : String) :
    dpop d k = Option.none ↔ dget d k = Option.none := by
  unfold dpop
  cases h : dget d k <;> simp

theorem dpop_some (d : Dict) (k : String) (v : Val) (h : dget d k = some v) :
    dpop d k = some (v, filterKeys (fun k2 => ! (k2 == k)) d) := by
  unfold dpop
  rw [h]

/-! Section: parameter extraction of the config handler. -/

theorem ifaceParamsOf_missing (d : Dict)
    (h : dget d "ip_address" = Option.none ∨ dget d "ifname" = Option.none) :
    ∃ msg, ifaceParamsOf d = Except.error (PyErr.rpcError msg) := by
  unfold ifaceParamsOf
  have hip : dget (params_to_dict d ["ip_address", "ifname"]) "ip_address" =
      dget d "ip_address" := by
    rw [params_to_dict, dget_filterKeys]; rfl
  cases hie : dget d "ip_address" with
  | none =>
    have : dpop (params_to_dict d ["ip_address", "ifname"]) "ip_address" = Option.none := by
      rw [dpop_none_iff, hip, hie]
    rw [this]
    exact ⟨_, rfl⟩
  | some ipv =>
    have hif : dget d "ifname" = Option.none := by
      rcases h with h | h
      · rw [hie] at h; cases h
      · exact h
    rw [dpop_some _ _ _ (hip.trans hie)]
    have h1 : dget (dset (filterKeys (fun k2 => ! (k2 == "ip_address"))
        (params_to_dict d ["ip_address", "ifname"])) "primary_ip_address" ipv) "ifname" =
        Option.none := by
      rw [dget_dset_ne _ _ _ _ (by decide), dget_filterKeys]
      simp only [params_to_dict, dget_filterKeys]
      simp [hif]
    have h2 : dpop (dset (filterKeys (fun k2 => ! (k2 == "ip_address"))
        (params_to_dict d ["ip_address", "ifname"])) "primary_ip_address" ipv) "ifname" =
        Option.none := by
      rw [dpop_none_iff]; exact h1
    refine ⟨"ifname parameter is missing", ?_⟩
    simp [h2]

/-- Inversion of the dispatcher's `try ... except RPCError` block: a
response with no error and a result can only come from a handler that
returned normally. -/
theorem toOutcome_ok_inv (r : Except PyErr Val × List RegCall) (v : Val) (cs : List RegCall)
    (h : toOutcome r = (DispatchOutcome.response Option.none (some v), cs)) :
    r = (Except.ok v, cs) := by
  obtain ⟨e, c⟩ := r
  cases e with
  | ok w =>
    simp only [toOutcome, Prod.mk.injEq, DispatchOutcome.response.injEq,
      Option.some.injEq, true_and] at h
    obtain ⟨hv, hc⟩ := h
    rw [hv, hc]
  | error pe => cases pe <;> simp [toOutcome] at h

/-- C3: a `vrrp_config` request whose first parameter object lacks the
`ip_address` key or the `ifname` key is answered with a non-null error
string and a null result, and the Instance Registry is never invoked. -/
theorem config_missing_iface_param_rejected (env : Env) (d : Dict) (rest : List Val)
    (h : dget d "ip_address" = Option.none ∨ dget d "ifname" = Option.none) :
    ∃ msg, dispatch env "vrrp_config" (Val.dict d :: rest) =
      (DispatchOutcome.response (some msg) Option.none, []) := by
  obtain ⟨msg, hm⟩ := ifaceParamsOf_missing d h
  refine ⟨msg, ?_⟩
  show toOutcome (_config env (Val.dict d :: rest)) = _
  have hc : _config env (Val.dict d :: rest) = (Except.error (PyErr.rpcError msg), []) := by
    simp only [_config]
    rw [hm]
  rw [hc]
  rfl

/-- Witness for C3: the empty parameter dict lacks both keys; the
response is the missing-parameter error with a null result and no
registry call. -/
theorem config_missing_iface_param_rejected_witness :
    (dget ([] : Dict) "ip_address" = Option.none ∨ dget ([] : Dict) "ifname" = Option.none) ∧
    ∃ msg, dispatch env1 "vrrp_config" [Val.dict []] =
      (DispatchOutcome.response (some msg) Option.none, []) :=
  ⟨Or.inl rfl, config_missing_iface_param_rejected env1 [] [] (Or.inl rfl)⟩

/-- C2: a `vrrp_config` request that succeeds invoked the Instance
Registry exactly once, and its result is the 3-element list of the
returned instance-config's virtual-router id, its priority, and the
canonical string form of its first IP address. -/
theorem config_success_result_shape (env : Env) (params : List Val) (v : Val)
    (cs : List RegCall)
    (h : dispatch env "vrrp_config" params =
      (DispatchOutcome.response Option.none (some v), cs)) :
    ∃ io co ctx rec a s,
      cs = [RegCall.config io co ctx] ∧
      env.vrrpConfig io co ctx = Except.ok rec ∧
      rec.ip_addresses.head? = some a ∧
      ipAddressStr a = some s ∧
      v = Val.list [rec.vrid, rec.priority, Val.str s] := by
  have h2 := toOutcome_ok_inv _ _ _ h
  clear h
  cases params with
  | nil => simp [_config] at h2
  | cons p rest =>
    cases p with
    | dict d =>
      rcases hif : ifaceParamsOf d with e | ifp
      · simp [_config, hif] at h2
      rcases hmi : env.mkInterface ifp with _ | io
      · simp [_config, hif, hmi] at h2
      rcases hcp : configParamsOf env.use_vmac d with e | cps
      · simp [_config, hif, hmi, hcp] at h2
      rcases hmc : env.mkConfig cps with _ | co
      · simp [_config, hif, hmi, hcp, hmc] at h2
      rcases hvc : env.vrrpConfig io co ((dget d "contexts").getD Val.none) with m | rec
      · simp [_config, hif, hmi, hcp, hmc, hvc] at h2
      rcases hhd : rec.ip_addresses.head? with _ | a
      · simp [_config, hif, hmi, hcp, hmc, hvc, hhd] at h2
      rcases hip : ipAddressStr a with _ | s
      · simp [_config, hif, hmi, hcp, hmc, hvc, hhd, hip] at h2
      have hc : _config env (Val.dict d :: rest) =
          (Except.ok (Val.list [rec.vrid, rec.priority, Val.str s]),
            [RegCall.config io co ((dget d "contexts").getD Val.none)]) := by
        simp [_config, hif, hmi, hcp, hmc, hvc, hhd, hip]
      rw [hc] at h2
      simp only [Prod.mk.injEq, Except.ok.injEq] at h2
      obtain ⟨hv, hcs⟩ := h2
      exact ⟨io, co, (dget d "contexts").getD Val.none, rec, a, s, hcs.symm, hvc, hhd, hip,
        hv.symm⟩
    | none => simp [_config] at h2
    | bool b => simp [_config] at h2
    | int n => simp [_config] at h2
    | str s => simp [_config] at h2
    | list xs => simp [_config] at h2

/-- Witness for C2: a concrete successful `vrrp_config` request against
`env1` yields the 3-element result `[1, 100, "10.0.0.100"]`. -/
theorem config_success_result_shape_witness :
    dispatch env1 "vrrp_config" [Val.dict d1] =
      (DispatchOutcome.response Option.none
        (some (Val.list [Val.int 1, Val.int 100, Val.str "10.0.0.100"])),
        [RegCall.config
          (Val.dict [("primary_ip_address", Val.str "10.0.0.1"),
            ("device_name", Val.str "veth0"), ("vlan_id", Val.none),
            ("mac_address", Val.str DONTCARE_STR)])
          (Val.dict [("vrid", Val.int 1),
            ("ip_addresses", Val.list [Val.str "10.0.0.100"])]) Val.none]) ∧
    ∃ io co ctx rec a s,
      [RegCall.config
        (Val.dict [("primary_ip_address", Val.str "10.0.0.1"),
          ("device_name", Val.str "veth0"), ("vlan_id", Val.none),
          ("mac_address", Val.str DONTCARE_STR)])
        (Val.dict [("vrid", Val.int 1),
          ("ip_addresses", Val.list [Val.str "10.0.0.100"])]) Val.none] =
        [RegCall.config io co ctx] ∧
      env1.vrrpConfig io co ctx = Except.ok rec ∧
      rec.ip_addresses.head? = some a ∧
      ipAddressStr a = some s ∧
      Val.list [Val.int 1, Val.int 100, Val.str "10.0.0.100"] =
        Val.list [rec.vrid, rec.priority, Val.str s] :=
  ⟨rfl, config_success_result_shape env1 [Val.dict d1]
    (Val.list [Val.int 1, Val.int 100, Val.str "10.0.0.100"]) _ rfl⟩

/-- The first-match behavior of `List.find?`: a found element sits at
an index all of whose predecessors fail the predicate. -/
theorem find?_first {α : Type} (p : α → Bool) (l : List α) (x : α)
    (h : l.find? p = some x) :
    ∃ k, ∃ hk : k < l.length, l.get ⟨k, hk⟩ = x ∧ p x = true ∧
      ∀ j, ∀ hj : j < l.length, j < k → p (l.get ⟨j, hj⟩) = false := by
  induction l with
  | nil => simp at h
  | cons a l ih =>
    by_cases hp : p a = true
    · rw [List.find?_cons_of_pos _ hp] at h
      have hax : a = x := by injection h
      subst hax
      refine ⟨0, by simp, rfl, hp, ?_⟩
      intro j hj hj0
      exact absurd hj0 (Nat.not_lt_zero j)
    · rw [List.find?_cons_of_neg _ hp] at h
      obtain ⟨k, hk, hget, hpx, hprev⟩ := ih h
      refine ⟨k + 1, by simpa using Nat.succ_lt_succ hk, by simpa using hget, hpx, ?_⟩
      intro j hj hjk
      cases j with
      | zero => simpa using Bool.not_eq_true _ ▸ hp
      | succ j2 =>
        have hj2 : j2 < l.length := by simpa using Nat.lt_of_succ_lt_succ hj
        have := hprev j2 hj2 (Nat.lt_of_succ_lt_succ hjk)
        simpa using this

/-- The helper `_lookup_instance` returns `None` exactly when no reported
instance's config vrid compares `==` to the supplied value. -/
theorem lookup_instance_eq_none (env : Env) (vrid : Val)
    (h : ∀ inst ∈ env.instance_list, valBEq vrid inst.config.vrid = false) :
    _lookup_instance env vrid = Option.none := by
  unfold _lookup_instance
  rw [List.find?_eq_none.mpr]
  · rfl
  · intro inst hinst
    simp [h inst hinst]

/-- A successful `_lookup_instance` names the first instance, in the
registry's reported order, whose config vrid compares `==` to the
supplied value. -/
theorem lookup_instance_first_match (env : Env) (vrid : Val) (nm : String)
    (h : _lookup_instance env vrid = some nm) :
    ∃ k, ∃ hk : k < env.instance_list.length,
      nm = (env.instance_list.get ⟨k, hk⟩).instance_name ∧
      valBEq vrid (env.instance_list.get ⟨k, hk⟩).config.vrid = true ∧
      ∀ j, ∀ hj : j < env.instance_list.length, j < k →
        valBEq vrid (env.instance_list.get ⟨j, hj⟩).config.vrid = false := by
  unfold _lookup_instance at h
  rw [Option.map_eq_some'] at h
  obtain ⟨inst, hfind, hname⟩ := h
  obtain ⟨k, hk, hget, hpx, hprev⟩ := find?_first _ _ _ hfind
  refine ⟨k, hk, ?_, ?_, hprev⟩
  · rw [hget]; exact hname.symm
  · rw [hget]; exact hpx

/-- C6: a `vrrp_config_change` or `vrrp_shutdown` request whose integer
vrid matches no live instance is answered with the not-found error
string `vrid V is not found` and a null result, and only a read
(`vrrp_list`) reaches the registry — neither mutator is invoked. -/
theorem unknown_vrid_not_found (env : Env) (d : Dict) (rest : List Val) (v : Int)
    (hd : dget d "vrid" = some (Val.int v))
    (h : ∀ inst ∈ env.instance_list, valBEq (Val.int v) inst.config.vrid = false) :
    dispatch env "vrrp_config_change" (Val.dict d :: rest) =
      (DispatchOutcome.response (some ("vrid " ++ toString v ++ " is not found")) Option.none,
        [RegCall.list]) ∧
    dispatch env "vrrp_shutdown" (Val.dict d :: rest) =
      (DispatchOutcome.response (some ("vrid " ++ toString v ++ " is not found")) Option.none,
        [RegCall.list]) := by
  have hl := lookup_instance_eq_none env (Val.int v) h
  constructor
  · show toOutcome (_config_change env (Val.dict d :: rest)) = _
    have hc : _config_change env (Val.dict d :: rest) =
        (Except.error (PyErr.rpcError ("vrid " ++ toString v ++ " is not found")),
          [RegCall.list]) := by
      simp [_config_change, hd, hl, notFoundResult, formatD]
    rw [hc]; rfl
  · show toOutcome (_shutdown env (Val.dict d :: rest)) = _
    have hc : _shutdown env (Val.dict d :: rest) =
        (Except.error (PyErr.rpcError ("vrid " ++ toString v ++ " is not found")),
          [RegCall.list]) := by
      simp [_shutdown, hd, hl, notFoundResult, formatD]
    rw [hc]; rfl

/-- Witness for C6: vrid 99 against the one-instance registry (vrid 1)
yields exactly the error string of the spec's scenario. -/
theorem unknown_vrid_not_found_witness :
    dget [("vrid", Val.int 99)] "vrid" = some (Val.int 99) ∧
    (∀ inst ∈ env1.instance_list, valBEq (Val.int 99) inst.config.vrid = false) ∧
    dispatch env1 "vrrp_config_change" [Val.dict [("vrid", Val.int 99)]] =
      (DispatchOutcome.response (some "vrid 99 is not found") Option.none, [RegCall.list]) :=
  ⟨rfl, by decide,
    (unknown_vrid_not_found env1 [("vrid", Val.int 99)] [] 99 rfl (by decide)).1⟩

/-- C5 as amended: on a successful lookup, `vrrp_shutdown` answers with
the one-element list `[{}]` (a non-empty value holding an empty
mapping) and `vrrp_config_change` answers with the empty mapping `{}`;
each invokes the corresponding registry mutator exactly once. -/
theorem shutdown_config_change_success_results (env : Env) (d : Dict) (rest : List Val)
    (vv : Val) (nm : String)
    (hd : dget d "vrid" = some vv)
    (hl : _lookup_instance env vv = some nm)
    (hn : ¬ nm = "") :
    dispatch env "vrrp_shutdown" (Val.dict d :: rest) =
      (DispatchOutcome.response Option.none (some (Val.list [Val.dict []])),
        [RegCall.list, RegCall.shutdown nm]) ∧
    dispatch env "vrrp_config_change" (Val.dict d :: rest) =
      (DispatchOutcome.response Option.none (some (Val.dict [])),
        [RegCall.list, RegCall.configChange nm ((dget d "priority").getD Val.none)
          ((dget d "advertisement_interval").getD Val.none)]) := by
  constructor
  · show toOutcome (_shutdown env (Val.dict d :: rest)) = _
    have hc : _shutdown env (Val.dict d :: rest) =
        (Except.ok (Val.list [Val.dict []]), [RegCall.list, RegCall.shutdown nm]) := by
      simp [_shutdown, hd, hl, hn]
    rw [hc]; rfl
  · show toOutcome (_config_change env (Val.dict d :: rest)) = _
    have hc : _config_change env (Val.dict d :: rest) =
        (Except.ok (Val.dict []),
          [RegCall.list, RegCall.configChange nm ((dget d "priority").getD Val.none)
            ((dget d "advertisement_interval").getD Val.none)]) := by
      simp [_config_change, hd, hl, hn]
    rw [hc]; rfl

/-- Counterexample to C5 as stated: a successful `vrrp_shutdown` does
not return an empty result — its result is the one-element list
`[{}]`. -/
theorem shutdown_result_not_empty :
    dispatch env1 "vrrp_shutdown" [Val.dict [("vrid", Val.int 1)]] =
      (DispatchOutcome.response Option.none (some (Val.list [Val.dict []])),
        [RegCall.list, RegCall.shutdown "vrr1"]) ∧
    isEmptyResult (Val.list [Val.dict []]) = false :=
  ⟨rfl, rfl⟩

/-- Witness for the amended C5 at a concrete input. -/
theorem shutdown_config_change_success_results_witness :
    dget [("vrid", Val.int 1)] "vrid" = some (Val.int 1) ∧
    _lookup_instance env1 (Val.int 1) = some "vrr1" ∧
    ¬ "vrr1" = "" ∧
    dispatch env1 "vrrp_config_change" [Val.dict [("vrid", Val.int 1)]] =
      (DispatchOutcome.response Option.none (some (Val.dict [])),
        [RegCall.list, RegCall.configChange "vrr1" Val.none Val.none]) :=
  ⟨rfl, rfl, by decide,
    (shutdown_config_change_success_results env1 [("vrid", Val.int 1)] [] (Val.int 1) "vrr1"
      rfl rfl (by decide)).2⟩

/-- C10: when the registry reports several instances with the supplied
vrid, `vrrp_shutdown` and `vrrp_config_change` act on exactly one of
them — the first match in the registry's reported order. -/
theorem duplicate_vrid_first_match (env : Env) (d : Dict) (rest : List Val) (vv : Val)
    (nm : String)
    (hd : dget d "vrid" = some vv)
    (hl : _lookup_instance env vv = some nm)
    (hn : ¬ nm = "") :
    (∃ k, ∃ hk : k < env.instance_list.length,
      nm = (env.instance_list.get ⟨k, hk⟩).instance_name ∧
      valBEq vv (env.instance_list.get ⟨k, hk⟩).config.vrid = true ∧
      ∀ j, ∀ hj : j < env.instance_list.length, j < k →
        valBEq vv (env.instance_list.get ⟨j, hj⟩).config.vrid = false) ∧
    (_shutdown env (Val.dict d :: rest)).2 = [RegCall.list, RegCall.shutdown nm] ∧
    (_config_change env (Val.dict d :: rest)).2 =
      [RegCall.list, RegCall.configChange nm ((dget d "priority").getD Val.none)
        ((dget d "advertisement_interval").getD Val.none)] := by
  refine ⟨lookup_instance_first_match env vv nm hl, ?_, ?_⟩
  · have hc : _shutdown env (Val.dict d :: rest) =
        (Except.ok (Val.list [Val.dict []]), [RegCall.list, RegCall.shutdown nm]) := by
      simp [_shutdown, hd, hl, hn]
    rw [hc]
  · have hc : _config_change env (Val.dict d :: rest) =
        (Except.ok (Val.dict []),
          [RegCall.list, RegCall.configChange nm ((dget d "priority").getD Val.none)
            ((dget d "advertisement_interval").getD Val.none)]) := by
      simp [_config_change, hd, hl, hn]
    rw [hc]

/-- Witness for C10: two registry instances share vrid 1; the handlers
act on the first one (vrrpA), never on vrrpB. -/
theorem duplicate_vrid_first_match_witness :
    dget [("vrid", Val.int 1)] "vrid" = some (Val.int 1) ∧
    _lookup_instance env2 (Val.int 1) = some "vrrpA" ∧
    ¬ "vrrpA" = "" ∧
    (_shutdown env2 [Val.dict [("vrid", Val.int 1)]]).2 =
      [RegCall.list, RegCall.shutdown "vrrpA"] :=
  ⟨rfl, rfl, by decide,
    (duplicate_vrid_first_match env2 [("vrid", Val.int 1)] [] (Val.int 1) "vrrpA"
      rfl rfl (by decide)).2.1⟩

/-- C1 is refuted by the code: a `vrrp_shutdown` whose first parameter
object has no `vrid` key makes `_shutdown` format `'vrid %d is not
found'` with `vrid = None`, raising a TypeError that the dispatcher's
`except RPCError` clause does not catch — no response is sent for the
command and the loop thread terminates, so a command queued behind it
is never processed. -/
theorem dispatcher_crashes_on_missing_vrid :
    rpc_request_loop env0 [("vrrp_shutdown", [Val.dict []]), ("vrrp_list", [])] =
      [DispatchOutcome.crash (PyErr.otherError
        "TypeError: %d format: a number is required, not NoneType")] := rfl

/-- C8: any method name outside the fixed table is answered with an
unknown-method error string that contains the offending name, a null
result, and no handler runs (no registry call is recorded). -/
theorem unknown_method_rejected (env : Env) (method : String) (params : List Val)
    (h1 : ¬ method = "vrrp_config") (h2 : ¬ method = "vrrp_list")
    (h3 : ¬ method = "vrrp_config_change") (h4 : ¬ method = "vrrp_shutdown") :
    dispatch env method params =
      (DispatchOutcome.response (some ("Unknown method " ++ method)) Option.none, []) ∧
    ∃ pre, "Unknown method " ++ method = pre ++ method := by
  unfold dispatch
  rw [if_neg h1, if_neg h2, if_neg h3, if_neg h4]
  exact ⟨rfl, ⟨"Unknown method ", rfl⟩⟩

/-- Witness for C8 at the concrete method name `foo`. -/
theorem unknown_method_rejected_witness :
    ¬ "foo" = "vrrp_config" ∧ ¬ "foo" = "vrrp_list" ∧ ¬ "foo" = "vrrp_config_change" ∧
    ¬ "foo" = "vrrp_shutdown" ∧
    dispatch env1 "foo" [] =
      (DispatchOutcome.response (some ("Unknown method " ++ "foo")) Option.none, []) :=
  ⟨by decide, by decide, by decide, by decide,
    (unknown_method_rejected env1 "foo" [] (by decide) (by decide) (by decide)
      (by decide)).1⟩

/-- The loop of `_list` builds exactly one record per registry
instance, in the registry's reported order. -/
theorem build_ret_list_ok (l : List VRRPInstance) (rs : List Val)
    (h : build_ret_list l = Except.ok rs) :
    rs.length = l.length ∧
    ∀ k, ∀ hk1 : k < rs.length, ∀ hk2 : k < l.length,
      ∃ a s, (l.get ⟨k, hk2⟩).config.ip_addresses.head? = some a ∧
        ipAddressStr a = some s ∧
        rs.get ⟨k, hk1⟩ = listRecord (l.get ⟨k, hk2⟩) s := by
  induction l generalizing rs with
  | nil =>
    simp only [build_ret_list, Except.ok.injEq] at h
    subst h
    exact ⟨rfl, fun k hk1 hk2 => absurd hk2 (Nat.not_lt_zero k)⟩
  | cons inst l ih =>
    rcases hi : instance_info inst with e | r
    · simp [build_ret_list, hi] at h
    rcases hb : build_ret_list l with e | rs2
    · simp [build_ret_list, hi, hb] at h
    have hr : rs = r :: rs2 := by
      simp only [build_ret_list, hi, hb, Except.ok.injEq] at h
      exact h.symm
    subst hr
    obtain ⟨hlen, hrec⟩ := ih rs2 hb
    rcases hhd : inst.config.ip_addresses.head? with _ | a
    · simp [instance_info, hhd] at hi
    rcases hip : ipAddressStr a with _ | s
    · simp [instance_info, hhd, hip] at hi
    have hrrec : r = listRecord inst s := by
      simp only [instance_info, hhd, hip, Except.ok.injEq] at hi
      exact hi.symm
    refine ⟨by simpa using hlen, ?_⟩
    intro k hk1 hk2
    cases k with
    | zero => exact ⟨a, s, hhd, hip, by simpa using hrrec⟩
    | succ k2 =>
      have hk1b : k2 < rs2.length := by simpa using Nat.lt_of_succ_lt_succ hk1
      have hk2b : k2 < l.length := by simpa using Nat.lt_of_succ_lt_succ hk2
      obtain ⟨a2, s2, h1, h2, h3⟩ := hrec k2 hk1b hk2b
      exact ⟨a2, s2, by simpa using h1, h2, by simpa using h3⟩

/-- C7: a `vrrp_list` response contains, for each registry instance in
the registry's reported order, exactly one record with the instance
name, vrid, version, advertisement interval, priority, and the
canonical string form of the primary address — and the parameters of
the request are irrelevant. -/
theorem list_returns_record_per_instance (env : Env) (params params2 rs : List Val)
    (cs : List RegCall)
    (h : dispatch env "vrrp_list" params =
      (DispatchOutcome.response Option.none (some (Val.list rs)), cs)) :
    cs = [RegCall.list] ∧
    dispatch env "vrrp_list" params2 = dispatch env "vrrp_list" params ∧
    rs.length = env.instance_list.length ∧
    ∀ k, ∀ hk1 : k < rs.length, ∀ hk2 : k < env.instance_list.length,
      ∃ a s, (env.instance_list.get ⟨k, hk2⟩).config.ip_addresses.head? = some a ∧
        ipAddressStr a = some s ∧
        rs.get ⟨k, hk1⟩ = listRecord (env.instance_list.get ⟨k, hk2⟩) s := by
  have h2 := toOutcome_ok_inv _ _ _ h
  rcases hb : build_ret_list env.instance_list with e | rs0
  · simp [_list, hb] at h2
  have hr : rs0 = rs ∧ cs = [RegCall.list] := by
    simp only [_list, hb, Prod.mk.injEq, Except.ok.injEq, Val.list.injEq] at h2
    exact ⟨h2.1, h2.2.symm⟩
  obtain ⟨hrs, hcs⟩ := hr
  subst hrs
  obtain ⟨hlen, hrec⟩ := build_ret_list_ok _ _ hb
  exact ⟨hcs, rfl, hlen, hrec⟩

/-- Witness for C7: against the one-instance registry the response is
the one-record list for vrr1. -/
theorem list_returns_record_per_instance_witness :
    dispatch env1 "vrrp_list" [Val.int 7] =
      (DispatchOutcome.response Option.none
        (some (Val.list [listRecord inst1 "10.0.0.100"])), [RegCall.list]) ∧
    [listRecord inst1 "10.0.0.100"].length = env1.instance_list.length :=
  ⟨rfl,
    (list_returns_record_per_instance env1 [Val.int 7] [] [listRecord inst1 "10.0.0.100"]
      [RegCall.list] rfl).2.2.1⟩

/-- A concrete state-change event for the broadcaster counterexample. -/
def ev1 : StateEvent :=
  { instance_name := "vrr1", old_state := Val.str "BACKUP", new_state := Val.str "MASTER",
    vrid := Val.int 1 }

/-- Counterexample to C4 as stated: with two peers `[0, 1]` and a send
that fails for peer 0 only, nobody is notified — the failing send for
peer 0 prevents delivery to peer 1 and kills the broadcaster (the
handler has no exception handling around `send_notification`). -/
theorem broadcast_send_failure_not_isolated :
    (vrrp_state_changed_handler (fun p _ _ => p != 0) [0, 1] ev1).1 = [] ∧
    ¬ 1 ∈ (vrrp_state_changed_handler (fun p _ _ => p != 0) [0, 1] ev1).1 ∧
    (vrrp_state_changed_handler (fun p _ _ => p != 0) [0, 1] ev1).2 = false :=
  ⟨rfl, List.not_mem_nil 1, rfl⟩

/-- If every send succeeds, `send_all` notifies every peer, in order. -/
theorem send_all_all_ok (send : Nat → String → Val → Bool) (peers : List Nat)
    (en : String) (pl : Val) (h : ∀ p ∈ peers, send p en pl = true) :
    send_all send peers en pl = (peers, true) := by
  induction peers with
  | nil => rfl
  | cons p ps ih =>
    simp only [send_all]
    rw [if_pos (h p (List.mem_cons_self p ps)),
      ih (fun q hq => h q (List.mem_cons_of_mem p hq))]

/-- C4 as amended: for every state-change event the broadcaster builds
the payload of vrid, old state and new state, and sends the
`notify_status` notification to every peer of the shared set in order —
provided every send succeeds; a failing send raises out of the
broadcaster (see the counterexample). -/
theorem broadcast_payload_and_full_delivery (send : Nat → String → Val → Bool)
    (peers : List Nat) (ev : StateEvent)
    (h : ∀ p ∈ peers, send p "notify_status" (Val.list [notify_params ev]) = true) :
    notify_params ev = Val.dict [("vrid", ev.vrid), ("old_state", ev.old_state),
      ("new_state", ev.new_state)] ∧
    vrrp_state_changed_handler send peers ev = (peers, true) :=
  ⟨rfl, send_all_all_ok send peers "notify_status" (Val.list [notify_params ev]) h⟩

/-- Witness for the amended C4: two peers with an always-succeeding
send are both notified. -/
theorem broadcast_payload_and_full_delivery_witness :
    (∀ p ∈ ([0, 1] : List Nat),
      (fun _ _ _ => true : Nat → String → Val → Bool) p "notify_status"
        (Val.list [notify_params ev1]) = true) ∧
    vrrp_state_changed_handler (fun _ _ _ => true) [0, 1] ev1 = ([0, 1], true) :=
  ⟨fun _ _ => rfl,
    (broadcast_payload_and_full_delivery (fun _ _ _ => true) [0, 1] ev1
      (fun _ _ => rfl)).2⟩

/-- Reflexivity of outcome agreement. -/
theorem sameOutcome_refl (a : Except PyErr Val × List RegCall) : sameOutcome a a := by
  rcases a with ⟨e, c⟩
  cases e with
  | ok v => exact ⟨rfl, rfl⟩
  | error pe => cases pe <;> exact ⟨rfl, trivial⟩

/-- Filtering a dict down to keys in `p` does not change its filtering
to a smaller key set. -/
theorem params_to_dict_filterKeys (p : String → Bool) (d : Dict) (ks : List String)
    (h : ∀ k, ks.contains k = true → p k = true) :
    params_to_dict (filterKeys p d) ks = params_to_dict d ks := by
  unfold params_to_dict filterKeys
  rw [List.filter_filter]
  apply List.filter_congr
  intro kv _
  cases hc : ks.contains kv.1
  · simp only [hc, Bool.false_and]
  · simp only [hc, h kv.1 hc, Bool.true_and]

/-- C9: keys of the first parameter object other than the recognized
interface keys, config keys and `contexts` are silently discarded —
dropping them changes neither the dict handed to the interface
constructor, nor the dict handed to the config constructor, nor the
forwarded `contexts` value, and the handler's outcome (success value,
error kind, registry calls) is unchanged. -/
theorem config_unknown_keys_discarded (env : Env) (d : Dict) (rest : List Val) :
    ifaceParamsOf (filterKeys (fun k => recognizedKeys.contains k) d) = ifaceParamsOf d ∧
    configParamsOf env.use_vmac (filterKeys (fun k => recognizedKeys.contains k) d) =
      configParamsOf env.use_vmac d ∧
    dget (filterKeys (fun k => recognizedKeys.contains k) d) "contexts" =
      dget d "contexts" ∧
    sameOutcome
      (_config env (Val.dict (filterKeys (fun k => recognizedKeys.contains k) d) :: rest))
      (_config env (Val.dict d :: rest)) := by
  have hsub1 : ∀ k, (["ip_address", "ifname"] : List String).contains k = true →
      recognizedKeys.contains k = true := by
    intro k hk
    simp only [List.contains_cons, List.contains_nil, Bool.or_false, Bool.or_eq_true,
      beq_iff_eq] at hk
    rcases hk with rfl | rfl <;> rfl
  have hsub2 : ∀ k, (["vrid", "ip_addr", "version", "admin_state", "priority",
      "advertisement_interval", "preempt_mode", "preempt_delay",
      "statistics_interval"] : List String).contains k = true →
      recognizedKeys.contains k = true := by
    intro k hk
    simp only [List.contains_cons, List.contains_nil, Bool.or_false, Bool.or_eq_true,
      beq_iff_eq] at hk
    rcases hk with rfl | rfl | rfl | rfl | rfl | rfl | rfl | rfl | rfl <;> rfl
  have hif : ifaceParamsOf (filterKeys (fun k => recognizedKeys.contains k) d) =
      ifaceParamsOf d := by
    unfold ifaceParamsOf
    rw [params_to_dict_filterKeys _ _ _ hsub1]
  have hcp : configParamsOf env.use_vmac (filterKeys (fun k => recognizedKeys.contains k) d) =
      configParamsOf env.use_vmac d := by
    unfold configParamsOf
    rw [params_to_dict_filterKeys _ _ _ hsub2]
  have hctx : dget (filterKeys (fun k => recognizedKeys.contains k) d) "contexts" =
      dget d "contexts" := by
    rw [dget_filterKeys]
    exact if_pos rfl
  set fd := filterKeys (fun k => recognizedKeys.contains k) d with hfd
  refine ⟨hif, hcp, hctx, ?_⟩
  rcases h1 : ifaceParamsOf d with e | ifp
  · have hL : _config env (Val.dict fd :: rest) = (Except.error e, []) := by
      simp [_config, hif, h1]
    have hR : _config env (Val.dict d :: rest) = (Except.error e, []) := by
      simp [_config, h1]
    rw [hL, hR]
    exact sameOutcome_refl _
  rcases h2 : env.mkInterface ifp with _ | io
  · have hL : _config env (Val.dict fd :: rest) =
        (Except.error (PyErr.rpcError ("parameters are invalid, " ++
          pyRepr (Val.dict fd))), []) := by
      simp [_config, hif, h1, h2]
    have hR : _config env (Val.dict d :: rest) =
        (Except.error (PyErr.rpcError ("parameters are invalid, " ++
          pyRepr (Val.dict d))), []) := by
      simp [_config, h1, h2]
    rw [hL, hR]
    exact ⟨rfl, trivial⟩
  rcases h3 : configParamsOf env.use_vmac d with e | cps
  · have hL : _config env (Val.dict fd :: rest) = (Except.error e, []) := by
      simp [_config, hif, hcp, h1, h2, h3]
    have hR : _config env (Val.dict d :: rest) = (Except.error e, []) := by
      simp [_config, h1, h2, h3]
    rw [hL, hR]
    exact sameOutcome_refl _
  rcases h4 : env.mkConfig cps with _ | co
  · have hL : _config env (Val.dict fd :: rest) =
        (Except.error (PyErr.rpcError ("parameters are invalid, " ++
          pyRepr (Val.dict fd))), []) := by
      simp [_config, hif, hcp, h1, h2, h3, h4]
    have hR : _config env (Val.dict d :: rest) =
        (Except.error (PyErr.rpcError ("parameters are invalid, " ++
          pyRepr (Val.dict d))), []) := by
      simp [_config, h1, h2, h3, h4]
    rw [hL, hR]
    exact ⟨rfl, trivial⟩
  have hLR : _config env (Val.dict fd :: rest) = _config env (Val.dict d :: rest) := by
    simp [_config, hif, hcp, hctx, h1, h2, h3, h4]
  rw [hLR]
  exact sameOutcome_refl _

end RpcVRRP
